import Mathlib

/-
Verification of the ETA Fusion & Delay Attribution Engine
(backend/app.py, backend/weather_api.py, backend/traffic_client.py,
backend/valhalla_client.py).

Embedding conventions:
- Python floats are modelled as elements of a linear ordered field
  (instantiated at ℚ for concrete evaluation, at ℝ where the code uses
  trigonometry).  Decimal literals of the source such as 0.4 or 1.2 are
  written as the exact rationals 2/5, 6/5, and so on.
- Timestamps are numbers of seconds; datetime subtraction becomes
  numeric subtraction, datetime.utcnow() becomes an explicit `now`
  argument.
- Python dicts with a fixed key set become structures; a key that is
  read with `dict.get(k, default)` and is not always present is an
  `Option` field and the read becomes `Option.getD`.
- External providers (routing, weather, traffic HTTP calls) are inputs:
  an environment record supplies, per leg, the values the provider
  calls would have returned.  Everything downstream of those calls is
  translated from the source.
- Human readable f-strings whose only role is display, and whose
  numeric payload the classifier re-extracts by regular expression,
  are modelled as small inductive types carrying exactly the values
  the source interpolates into (and parses back out of) the text.
-/

set_option autoImplicit false

namespace EtaTracker

/-- Delay reason codes, app.py REASON_CODES (lines 55-63). -/
inductive Reason where
  | on_time
  | traffic_congestion
  | weather_impact
  | facility_dwell
  | vehicle_issue
  | driver_hos_risk
  | road_incident
  deriving DecidableEq, Repr

/-- Weather provider response, weather_api.py get_weather.
Fields are the keys the modelled logic reads; `precipitation_mm_h` and
`wind_speed_kph` are read in the source with dict.get and a default of 0,
hence `Option`.  The unused keys (temperature, conditions, description)
are omitted. -/
structure WeatherData (α : Type) where
  precipitation_mm_h : Option α
  wind_speed_kph : Option α
  alerts : List String
  deriving DecidableEq, Repr

/-- Weather reason text, weather_api.py calculate_weather_multiplier
(lines 175-200).  Each constructor is one f-string template of the
source, carrying the numeric value interpolated into it (which the
classifier in app.py re-extracts from the text by regex); `alerts`
carries the alert event names joined into the text. -/
inductive WeatherReason (α : Type) where
  /-- "Heavy rain (p mm/h) reducing speeds by 40%" -/
  | heavyRain (precip : α)
  /-- "Moderate rain (p mm/h) reducing speeds by 20%" -/
  | moderateRain (precip : α)
  /-- "Light rain (p mm/h) reducing speeds by 10%" -/
  | lightRain (precip : α)
  /-- "High winds (w km/h) reducing speeds by 30%" -/
  | highWinds (wind : α)
  /-- "Moderate winds (w km/h) reducing speeds by 15%" -/
  | moderateWinds (wind : α)
  /-- "Clear weather conditions" -/
  | clear
  /-- "Weather alerts: ..." (alert event names) -/
  | alerts (events : List String)
  /-- "Clear conditions" - initial value in get_worst_weather_condition -/
  | clearDefault
  /-- "No weather data available" - empty sample list -/
  | noData
  deriving DecidableEq, Repr

/-- Traffic provider response, traffic_client.py get_traffic_on_route.
Only the keys the modelled logic reads are kept (speed ratio and
congestion level); both are read with dict.get in the source, hence
`Option`. -/
structure TrafficData (α : Type) where
  speedRatio : Option α
  congestionLevel : Option String
  deriving DecidableEq, Repr

/-- Traffic reason text, traffic_client.py calculate_traffic_multiplier
(lines 332-339); each constructor is one f-string template carrying the
interpolated speed ratio. -/
inductive TrafficReason (α : Type) where
  | heavy (speedRatio : α)
  | moderate (speedRatio : α)
  | light (speedRatio : α)
  | freeFlow
  deriving DecidableEq, Repr

section Multipliers

variable {α : Type} [LinearOrderedField α]

/-- weather_api.py calculate_weather_multiplier (lines 164-202). -/
def calculate_weather_multiplier (weather : WeatherData α) : α × WeatherReason α :=
  let precip := weather.precipitation_mm_h.getD 0
  let wind := weather.wind_speed_kph.getD 0
  let mr : α × WeatherReason α :=
    if precip > 10 then (6/10, .heavyRain precip)
    else if precip > 5 then (8/10, .moderateRain precip)
    else if precip > 0 then (9/10, .lightRain precip)
    else if wind > 40 then (7/10, .highWinds wind)
    else if wind > 30 then (85/100, .moderateWinds wind)
    else (1, .clear)
  -- weather.get('alerts') is truthy iff the list is nonempty
  if weather.alerts ≠ [] then
    (min mr.1 (7/10), .alerts weather.alerts)
  else
    mr

/-- traffic_client.py calculate_traffic_multiplier (lines 318-341). -/
def calculate_traffic_multiplier (traffic_data : TrafficData α) : α × TrafficReason α :=
  let speedRatio := traffic_data.speedRatio.getD 1
  let congestion := traffic_data.congestionLevel.getD "none"
  let multiplier := max speedRatio (2/5)
  let reason : TrafficReason α :=
    if congestion = "heavy" then .heavy speedRatio
    else if congestion = "moderate" then .moderate speedRatio
    else if congestion = "light" then .light speedRatio
    else .freeFlow
  (multiplier, reason)

/-- traffic_client.py is_congested (lines 343-352). -/
def is_congested (traffic_data : TrafficData α) : Bool :=
  traffic_data.speedRatio.getD 1 < 2/5

end Multipliers

section Sampler

variable {α : Type} [LinearOrderedField α]

/-- The list of waypoint indices sampled by
weather_api.py get_weather_along_route (lines 222-223):
`[int(i * (len(waypoints) - 1) / (num_samples - 1)) for i in range(num_samples)]`.
For nonnegative operands Python `int(a / b)` is the floor of the exact
quotient, which is Nat division. -/
def sampleIndices (numWaypoints numSamples : Nat) : List Nat :=
  (List.range numSamples).map (fun i => i * (numWaypoints - 1) / (numSamples - 1))

/-- weather_api.py get_weather_along_route (lines 204-231).
`getW i` is the value `self.get_weather(*waypoints[i])` returns (the
provider boundary); samples that come back None are skipped, as in the
source loop.  When `num_samples = 1` and the length guard has passed,
the index comprehension evaluates `0 / 0` in Python float division and
raises ZeroDivisionError; that exception is the `Except.error` case. -/
def get_weather_along_route (getW : Nat → Option (WeatherData α))
    (waypoints : List (α × α)) (numSamples : Nat) :
    Except Unit (List (WeatherData α)) :=
  if waypoints.length < 2 then .ok []
  else if numSamples = 1 then .error ()
  else .ok ((sampleIndices waypoints.length numSamples).filterMap
    (fun idx => (waypoints.get? idx).bind (fun _ => getW idx)))

/-- weather_api.py get_worst_weather_condition (lines 233-251). -/
def get_worst_weather_condition (weather_samples : List (WeatherData α)) :
    α × WeatherReason α :=
  if weather_samples = [] then (1, .noData)
  else
    weather_samples.foldl
      (fun worst weather =>
        let (multiplier, reason) := calculate_weather_multiplier weather
        if multiplier < worst.1 then (multiplier, reason) else worst)
      (1, .clearDefault)

end Sampler

section Routing

variable {α : Type} [LinearOrderedField α]

/-- A successful response of ValhallaRouter.route (valhalla_client.py
lines 91-102 / 175-187): the dict keys the modelled logic reads.  A
failed response (success=False) carries none of these keys, so the
whole response is modelled as `Option (RouteOk α)` with `none` for
failure. -/
structure RouteOk (α : Type) where
  distance_km : α
  duration_s : α
  duration_min : α
  deriving DecidableEq, Repr

/-- The route dict after calculate_eta_with_traffic added its keys
(valhalla_client.py lines 387-393). -/
structure AdjustedRoute (α : Type) where
  distance_km : α
  duration_s : α
  duration_min : α
  base_duration_s : α
  adjusted_duration_s : α
  traffic_multiplier : α
  weather_multiplier : α
  effective_multiplier : α
  deriving DecidableEq, Repr

/-- valhalla_client.py calculate_eta_with_traffic (lines 356-395).
`route` is the response of the external `self.route` call.  On failure
the dict is returned unchanged (still `none`).  The division at line
383 is total here; in the source it is only reached with multipliers
produced by the calculators, which are at least 0.4. -/
def calculate_eta_with_traffic (route : Option (RouteOk α))
    (traffic_multiplier weather_multiplier : α) : Option (AdjustedRoute α) :=
  match route with
  | none => none
  | some r =>
    let base_duration_s := r.duration_s
    let effective_multiplier := min traffic_multiplier weather_multiplier
    let adjusted_duration_s :=
      if effective_multiplier < 1 then base_duration_s / effective_multiplier
      else base_duration_s
    some {
      distance_km := r.distance_km
      duration_s := adjusted_duration_s
      duration_min := adjusted_duration_s / 60
      base_duration_s := base_duration_s
      adjusted_duration_s := adjusted_duration_s
      traffic_multiplier := traffic_multiplier
      weather_multiplier := weather_multiplier
      effective_multiplier := effective_multiplier }

end Routing

/-- A stop record (rows of the stops table as dicts, the fields the
modelled logic reads).  Timestamps are seconds; the source accepts both
ISO strings and datetimes and normalises with fromisoformat, which is
the identity in this embedding. -/
structure Stop (α : Type) where
  id : Nat
  lat : α
  lon : α
  completed : Bool
  planned_arr_ts : Option α
  planned_service_min : Option α
  actual_arr_ts : Option α
  actual_dep_ts : Option α
  deriving DecidableEq, Repr

/-- Explanation strings of score_delay_reason (app.py lines 266-286),
one constructor per f-string template, carrying the interpolated
values. -/
inductive Explanation (α : Type) where
  /-- "On schedule" (line 209) -/
  | onSchedule
  /-- congestion.capitalize() + " traffic congestion (speeds at N% of
  normal) causing L minutes of delay." (line 278) -/
  | trafficWithData (congestionLevel : String) (speedRatio : α) (lateByMin : ℤ)
  /-- "Traffic congestion is causing approximately L minutes of delay."
  (line 280) -/
  | trafficNoData (lateByMin : ℤ)
  /-- "Weather conditions (w) are causing approximately L minutes of
  delay." (line 282) -/
  | weatherDelay (impact : Option (WeatherReason α)) (lateByMin : ℤ)
  /-- "Extended dwell time at previous stop is adding L minutes to the
  schedule." (line 284) -/
  | facilityDwell (lateByMin : ℤ)
  /-- "Delay of L minutes detected, investigating cause." (line 286) -/
  | investigating (lateByMin : ℤ)
  /-- "Moderate delays of L minutes, likely due to traffic conditions."
  (lines 267-268) -/
  | genericDelay (lateByMin : ℤ)
  deriving DecidableEq, Repr

section Classifier

variable {α : Type} [LinearOrderedField α]

/-- The `scores` dict of score_delay_reason: reason code to score, in
insertion order. -/
abbrev ScoreMap (α : Type) := List (Reason × α)

/-- Python dict assignment `scores[k] = v`: overwrites in place if the
key exists (keeping its position), else appends. -/
def dictSet : ScoreMap α → Reason → α → ScoreMap α
  | [], k, v => [(k, v)]
  | p :: rest, k, v => if p.1 = k then (k, v) :: rest else p :: dictSet rest k v

/-- Python dict lookup `scores[k]` / `scores.get(k)`. -/
def dictLookup (m : ScoreMap α) (k : Reason) : Option α :=
  (m.find? (fun p => decide (p.1 = k))).map Prod.snd

/-- Python `max(scores, key=scores.get)` together with the looked-up
value: iterates in insertion order, a later entry replaces the current
best only when strictly greater, so ties go to the earlier entry. -/
def dictArgmax : ScoreMap α → Option (Reason × α)
  | [] => none
  | p :: rest => some (rest.foldl (fun best q => if q.2 > best.2 then q else best) p)

/-- Bool test for `token in s` on Python strings. -/
def hasSubstring (s token : String) : Bool := (s.splitOn token).length > 1

/-- Does `"rain" in weather_impact.lower()` hold (app.py line 224)?
The three rain templates of calculate_weather_multiplier contain the
word "rain"; the wind, clear and no-data templates do not; the alerts
template contains it iff an alert event name does. -/
def mentionsRain : WeatherReason α → Bool
  | .heavyRain _ => true
  | .moderateRain _ => true
  | .lightRain _ => true
  | .alerts events => events.any (fun e => hasSubstring e.toLower "rain")
  | _ => false

/-- The number the regex `(\d+\.?\d*)\s*mm/h` finds in the weather
impact text (app.py line 225): the precipitation value interpolated
into the rain templates (the source formats it with one decimal; the
exact value is carried here).  No other template contains "mm/h". -/
def rainValue : WeatherReason α → Option α
  | .heavyRain p => some p
  | .moderateRain p => some p
  | .lightRain p => some p
  | _ => none

/-- Does `"wind" in weather_impact.lower()` hold (app.py line 233)? -/
def mentionsWind : WeatherReason α → Bool
  | .highWinds _ => true
  | .moderateWinds _ => true
  | .alerts events => events.any (fun e => hasSubstring e.toLower "wind")
  | _ => false

/-- The number the regex `(\d+\.?\d*)\s*km/h` finds in the weather
impact text (app.py line 234): the wind value interpolated into the
wind templates.  The rain templates contain "mm/h", not "km/h". -/
def windValue : WeatherReason α → Option α
  | .highWinds w => some w
  | .moderateWinds w => some w
  | _ => none

/-- app.py lines 213-221: the traffic-congestion candidate. -/
def trafficScores (traffic_data : Option (TrafficData α)) (m : ScoreMap α) : ScoreMap α :=
  match traffic_data with
  | none => m
  | some t =>
    if is_congested t then dictSet m .traffic_congestion (9/10)
    else if t.congestionLevel = some "moderate" ∨ t.congestionLevel = some "heavy" then
      dictSet m .traffic_congestion (75/100)
    else m

/-- app.py lines 223-238: the weather-impact candidate (rain block then
wind block). -/
def weatherScores (weather_impact : Option (WeatherReason α)) (m : ScoreMap α) : ScoreMap α :=
  let afterRain :=
    match weather_impact with
    | some w =>
      if mentionsRain w then
        match rainValue w with
        | some precip =>
          if precip > 10 then dictSet m .weather_impact (85/100)
          else if precip > 5 then dictSet m .weather_impact (65/100)
          else m
        | none => m
      else m
    | none => m
  match weather_impact with
  | some w =>
    if mentionsWind w then
      match windValue w with
      | some wind =>
        if wind > 40 then dictSet afterRain .weather_impact (8/10) else afterRain
      | none => afterRain
    else afterRain
  | none => afterRain

/-- One iteration of the dwell loop, app.py lines 241-256. -/
def dwellStep (m : ScoreMap α) (stop : Stop α) : ScoreMap α :=
  if stop.completed then
    match stop.actual_arr_ts, stop.actual_dep_ts with
    | some arr, some dep =>
      let actual_dwell_min := (dep - arr) / 60
      let planned_service := stop.planned_service_min.getD 30
      if actual_dwell_min > planned_service * (12/10) then
        dictSet m .facility_dwell
          (min (9/10) (6/10 + (actual_dwell_min - planned_service) / 60))
      else m
    | _, _ => m
  else m

/-- app.py lines 240-256: the facility-dwell candidate, scanning all
stops. -/
def dwellScores (stops : List (Stop α)) (m : ScoreMap α) : ScoreMap α :=
  stops.foldl dwellStep m

/-- The guard of the dwell branch (app.py lines 242 and 254): a
completed stop with both actual timestamps whose dwell exceeds the
planned service time by more than 20 percent. -/
def dwellQualifies (stop : Stop α) : Bool :=
  stop.completed &&
    match stop.actual_arr_ts, stop.actual_dep_ts with
    | some arr, some dep =>
      decide ((dep - arr) / 60 > stop.planned_service_min.getD 30 * (12/10))
    | _, _ => false

/-- The facility-dwell score a qualifying stop registers
(app.py lines 255-256). -/
def dwellScoreOf (stop : Stop α) : α :=
  match stop.actual_arr_ts, stop.actual_dep_ts with
  | some arr, some dep =>
    min (9/10) (6/10 + ((dep - arr) / 60 - stop.planned_service_min.getD 30) / 60)
  | _, _ => 0

/-- The last stop of the list satisfying the dwell guard: the one whose
score survives the overwrites of the scan. -/
def lastQualifying : List (Stop α) → Option (Stop α)
  | [] => none
  | s :: rest =>
    match lastQualifying rest with
    | some x => some x
    | none => if dwellQualifies s then some s else none

/-- The candidate scores registered before the lateness-band fallback
(app.py lines 211-256). -/
def candidateScores (stops : List (Stop α)) (weather_impact : Option (WeatherReason α))
    (traffic_data : Option (TrafficData α)) : ScoreMap α :=
  dwellScores stops (weatherScores weather_impact (trafficScores traffic_data []))

/-- The explanation templating, app.py lines 273-286. -/
def mkExplanation (reason : Reason) (traffic_data : Option (TrafficData α))
    (weather_impact : Option (WeatherReason α)) (late_by_min : ℤ) : Explanation α :=
  match reason with
  | .traffic_congestion =>
    match traffic_data with
    | some t => .trafficWithData (t.congestionLevel.getD "moderate")
        (t.speedRatio.getD (7/10)) late_by_min
    | none => .trafficNoData late_by_min
  | .weather_impact => .weatherDelay weather_impact late_by_min
  | .facility_dwell => .facilityDwell late_by_min
  | _ => .investigating late_by_min

/-- app.py score_delay_reason (lines 192-288).  The `shipment` and
`current_pos` parameters of the source are not read in the body and are
omitted. -/
def score_delay_reason (stops : List (Stop α)) (late_by_min : ℤ)
    (weather_impact : Option (WeatherReason α))
    (traffic_data : Option (TrafficData α)) : Reason × α × Explanation α :=
  if late_by_min ≤ 5 then (.on_time, 1, .onSchedule)
  else
    let scores := candidateScores stops weather_impact traffic_data
    let scores :=
      if late_by_min > 30 ∧ scores = [] then dictSet scores .traffic_congestion (7/10)
      else if late_by_min > 15 ∧ scores = [] then dictSet scores .traffic_congestion (6/10)
      else scores
    match dictArgmax scores with
    | none => (.traffic_congestion, 1/2, .genericDelay late_by_min)
    | some (reason_code, confidence) =>
      (reason_code, confidence, mkExplanation reason_code traffic_data weather_impact late_by_min)

end Classifier

section EtaPipeline

/-- Python math.atan2(y, x): the argument of the point (x, y), in
(-pi, pi]. -/
noncomputable def atan2 (y x : ℝ) : ℝ := Complex.arg ⟨x, y⟩

/-- app.py calculate_distance (lines 67-79): haversine great-circle
distance in kilometers. -/
noncomputable def calculate_distance (lat1 lon1 lat2 lon2 : ℝ) : ℝ :=
  let R : ℝ := 6371
  let lat1_rad := lat1 * (Real.pi / 180)
  let lat2_rad := lat2 * (Real.pi / 180)
  let dlat := (lat2 - lat1) * (Real.pi / 180)
  let dlon := (lon2 - lon1) * (Real.pi / 180)
  let a := Real.sin (dlat / 2) ^ 2 +
    Real.cos lat1_rad * Real.cos lat2_rad * Real.sin (dlon / 2) ^ 2
  let c := 2 * atan2 (Real.sqrt a) (Real.sqrt (1 - a))
  R * c

/-- What the external providers return for one leg of
compute_eta_with_routing: `weatherAt i` is the weather provider
response at waypoint index i of the leg (weather_api.get_weather),
`traffic` is the traffic provider response for the leg
(traffic_api.get_traffic_on_route), `route` is the routing response
consumed inside router.calculate_eta_with_traffic. -/
structure LegEnv where
  weatherAt : Nat → Option (WeatherData ℝ)
  traffic : TrafficData ℝ
  route : Option (RouteOk ℝ)

/-- One per-stop ETA dict appended to `etas` (app.py lines 117-125 and
174-183).  The completed-stop dict has no weather_impact key, which is
`none` here. -/
structure Entry where
  stop_id : Nat
  eta_ts : Option ℝ
  on_time : Bool
  late_by_min : ℤ
  reason_code : Reason
  confidence : ℝ
  distance_km : ℝ
  weather_impact : Option (WeatherReason ℝ)

/-- The loop state of compute_eta_with_routing: current position and
cumulative minutes (app.py lines 111-113, updated at 185-188). -/
structure EtaState where
  lat : ℝ
  lon : ℝ
  cumulative : ℝ

/-- One iteration of the stop loop of compute_eta_with_routing
(app.py lines 115-188), for the given provider responses. -/
noncomputable def etaStep (now : ℝ) (env : LegEnv) (st : EtaState) (stop : Stop ℝ) :
    EtaState × Entry :=
  if stop.completed then
    (st, { stop_id := stop.id, eta_ts := stop.actual_arr_ts, on_time := true,
           late_by_min := 0, reason_code := .on_time, confidence := 1,
           distance_km := 0, weather_impact := none })
  else
    let waypoints : List (ℝ × ℝ) := [(st.lat, st.lon), (stop.lat, stop.lon)]
    -- num_samples=3 on a 2-point leg: never the ZeroDivisionError case
    let weather_samples := (get_weather_along_route env.weatherAt waypoints 3).toOption.getD []
    let worst := get_worst_weather_condition weather_samples
    let weather_multiplier := worst.1
    let weather_reason := worst.2
    let traffic_multiplier := (calculate_traffic_multiplier env.traffic).1
    let route_result := calculate_eta_with_traffic env.route traffic_multiplier weather_multiplier
    let dt : ℝ × ℝ :=
      match route_result with
      | none =>
        -- fallback, app.py lines 147-150
        let d := calculate_distance st.lat st.lon stop.lat stop.lon
        (d, d / 70 * 60)
      | some r => (r.distance_km, r.duration_min)
    let distance_km := dt.1
    let travel_time_min := dt.2
    let service_time_min := stop.planned_service_min.getD 0
    let total_time_min := st.cumulative + travel_time_min + service_time_min
    let eta_ts := now + total_time_min * 60
    let verdict : Bool × ℤ :=
      match stop.planned_arr_ts with
      | none => (true, 0)
      | some planned =>
        if planned < eta_ts then (false, ⌊(eta_ts - planned) / 60⌋) else (true, 0)
    ({ lat := stop.lat, lon := stop.lon, cumulative := total_time_min },
     { stop_id := stop.id, eta_ts := some eta_ts, on_time := verdict.1,
       late_by_min := verdict.2, reason_code := .on_time, confidence := 9/10,
       distance_km := distance_km,
       weather_impact := if weather_multiplier < 1 then some weather_reason else none })

/-- The stop loop of compute_eta_with_routing; `i` indexes the legs
into the provider environment. -/
noncomputable def compute_eta_aux (now : ℝ) (env : Nat → LegEnv) :
    EtaState → Nat → List (Stop ℝ) → List Entry
  | _, _, [] => []
  | st, i, stop :: rest =>
    let r := etaStep now (env i) st stop
    r.2 :: compute_eta_aux now env r.1 (i + 1) rest

/-- app.py compute_eta_with_routing (lines 99-190).  `now` is the value
of datetime.utcnow() (the source re-reads the clock on each iteration;
the microseconds elapsing between iterations are not modelled), `env`
the provider responses per leg. -/
noncomputable def compute_eta_with_routing (now : ℝ) (env : Nat → LegEnv)
    (current_pos : ℝ × ℝ) (stops : List (Stop ℝ)) : List Entry :=
  compute_eta_aux now env ⟨current_pos.1, current_pos.2, 0⟩ 0 stops

/-- The loop state after a prefix of the stops has been processed. -/
noncomputable def run_eta_state (now : ℝ) (env : Nat → LegEnv) :
    EtaState → Nat → List (Stop ℝ) → EtaState
  | st, _, [] => st
  | st, i, stop :: rest => run_eta_state now env (etaStep now (env i) st stop).1 (i + 1) rest

/-- The row written by db.insert_eta for one ETA entry
(app.py lines 441-458): the lateness fields come from the entry, the
reason, confidence and explanation from score_delay_reason. -/
structure StoredEta where
  stop_id : Nat
  eta_ts : Option ℝ
  on_time : Bool
  late_by_min : ℤ
  reason_code : Reason
  confidence : ℝ
  explanation : Explanation ℝ

/-- app.py lines 441-458: combine an ETA entry with the classifier
output into the stored row. -/
def store_eta (e : Entry) (scored : Reason × ℝ × Explanation ℝ) : StoredEta :=
  { stop_id := e.stop_id, eta_ts := e.eta_ts, on_time := e.on_time,
    late_by_min := e.late_by_min, reason_code := scored.1,
    confidence := scored.2.1, explanation := scored.2.2 }

/-- Concrete sample: a completed stop with recorded arrival. -/
noncomputable def stopCompleted : Stop ℝ := ⟨1, 0, 0, true, none, none, some 5, some 6⟩

/-- Concrete sample: a pending stop with planned arrival at time 0. -/
noncomputable def stopPending : Stop ℝ := ⟨2, 1, 1, false, some 0, none, none, none⟩

/-- Concrete sample: a pending stop with no planned arrival. -/
noncomputable def stopNoPlan : Stop ℝ := ⟨3, 1, 1, false, none, none, none, none⟩

/-- Concrete provider environment: no weather data, empty traffic
sample, failing routing call. -/
noncomputable def envRouteFail : Nat → LegEnv := fun _ => ⟨fun _ => none, ⟨none, none⟩, none⟩

/-- Concrete provider environment: no weather data, empty traffic
sample, successful 5 km / 6000 s routing response. -/
noncomputable def envRouteOk : Nat → LegEnv :=
  fun _ => ⟨fun _ => none, ⟨none, none⟩, some ⟨5, 6000, 100⟩⟩

end EtaPipeline

section DictLemmas

variable {α : Type}

theorem dictLookup_cons (p : Reason × α) (rest : ScoreMap α) (k : Reason) :
    dictLookup (p :: rest) k = if p.1 = k then some p.2 else dictLookup rest k := by
  by_cases h : p.1 = k <;> simp [dictLookup, List.find?, h]

theorem dictLookup_dictSet_self (m : ScoreMap α) (k : Reason) (v : α) :
    dictLookup (dictSet m k v) k = some v := by
  induction m with
  | nil => simp [dictSet, dictLookup_cons]
  | cons p rest ih =>
    rw [dictSet]
    by_cases h : p.1 = k
    · rw [if_pos h, dictLookup_cons, if_pos rfl]
    · rw [if_neg h, dictLookup_cons, if_neg h, ih]

theorem dictLookup_dictSet_ne (m : ScoreMap α) {k k2 : Reason} (h : k ≠ k2) (v : α) :
    dictLookup (dictSet m k v) k2 = dictLookup m k2 := by
  induction m with
  | nil => simp [dictSet, dictLookup_cons, h, dictLookup]
  | cons p rest ih =>
    rw [dictSet]
    by_cases hp : p.1 = k
    · rw [if_pos hp, dictLookup_cons, if_neg h, dictLookup_cons, if_neg (hp ▸ h)]
    · rw [if_neg hp, dictLookup_cons, dictLookup_cons, ih]

theorem dwellStep_eq [LinearOrderedField α] (m : ScoreMap α) (s : Stop α) :
    dwellStep m s =
      if dwellQualifies s then dictSet m .facility_dwell (dwellScoreOf s) else m := by
  rcases s with ⟨id, lat, lon, completed, pa, ps, aa, ad⟩
  cases completed <;> cases aa <;> cases ad <;>
    simp only [dwellStep, dwellQualifies, dwellScoreOf, Bool.false_and, Bool.true_and,
      if_false, Bool.cond_eq_ite] <;>
    first
    | rfl
    | (split_ifs with h1 <;> simp_all <;> try linarith)

theorem dwellScores_lookup [LinearOrderedField α] (stops : List (Stop α)) : ∀ m : ScoreMap α,
    dictLookup (dwellScores stops m) Reason.facility_dwell
      = (lastQualifying stops).elim (dictLookup m Reason.facility_dwell)
          (fun s => some (dwellScoreOf s)) := by
  induction stops with
  | nil => intro m; simp [dwellScores, lastQualifying]
  | cons s rest ih =>
    intro m
    rw [show dwellScores (s :: rest) m = dwellScores rest (dwellStep m s) from rfl]
    rw [ih (dwellStep m s), dwellStep_eq]
    rw [show lastQualifying (s :: rest)
          = (match lastQualifying rest with
             | some x => some x
             | none => if dwellQualifies s then some s else none) from rfl]
    cases lastQualifying rest with
    | some x => simp
    | none =>
      by_cases h : dwellQualifies s
      · simp [h, dictLookup_dictSet_self]
      · simp [h]

end DictLemmas

section PipelineLemmas

theorem compute_eta_aux_length (now : ℝ) (env : Nat → LegEnv) :
    ∀ (stops : List (Stop ℝ)) (st : EtaState) (i : Nat),
    (compute_eta_aux now env st i stops).length = stops.length := by
  intro stops
  induction stops with
  | nil => intro st i; rfl
  | cons s rest ih => intro st i; simp [compute_eta_aux, ih]

theorem compute_eta_aux_get (now : ℝ) (env : Nat → LegEnv) :
    ∀ (stops : List (Stop ℝ)) (st : EtaState) (i j : Nat) (h : j < stops.length)
      (h2 : j < (compute_eta_aux now env st i stops).length),
    (compute_eta_aux now env st i stops).get ⟨j, h2⟩
      = (etaStep now (env (i + j)) (run_eta_state now env st i (stops.take j))
          (stops.get ⟨j, h⟩)).2 := by
  intro stops
  induction stops with
  | nil => intro st i j h h2; exact absurd h (Nat.not_lt_zero j)
  | cons s rest ih =>
    intro st i j h h2
    cases j with
    | zero => simp [compute_eta_aux, run_eta_state]
    | succ j =>
      have h3 : j < (compute_eta_aux now env (etaStep now (env i) st s).1 (i + 1) rest).length := by
        rw [compute_eta_aux_length]
        exact Nat.lt_of_succ_lt_succ h
      have := ih (etaStep now (env i) st s).1 (i + 1) j (Nat.lt_of_succ_lt_succ h) h3
      simp only [compute_eta_aux, List.get_cons_succ, List.take_succ_cons, List.get_cons_succ]
      rw [show run_eta_state now env st i (s :: rest.take j)
            = run_eta_state now env (etaStep now (env i) st s).1 (i + 1) (rest.take j) from rfl]
      rw [show i + (j + 1) = i + 1 + j by omega]
      exact this

theorem compute_eta_length (now : ℝ) (env : Nat → LegEnv) (pos : ℝ × ℝ)
    (stops : List (Stop ℝ)) :
    (compute_eta_with_routing now env pos stops).length = stops.length :=
  compute_eta_aux_length now env stops ⟨pos.1, pos.2, 0⟩ 0

end PipelineLemmas

/-- C1 counterexample: with no registered candidate and lateness of 31
minutes, the fallback reason is traffic-congestion at confidence 0.70
with the no-traffic-data explanation, not 0.50 as claimed. -/
theorem C1_counterexample :
    score_delay_reason (α := ℚ) [] 31 none none
      = (.traffic_congestion, 7/10, .trafficNoData 31) ∧ (7/10 : ℚ) ≠ 1/2 := by
  constructor
  · norm_num [score_delay_reason, candidateScores, dwellScores, weatherScores, trafficScores,
      dictSet, dictArgmax, mkExplanation]
  · norm_num

/-- C1 (amended): when no candidate reason registered a score and
lateness exceeds 5 minutes, the classifier falls back to lateness
magnitude alone: above 30 minutes it returns traffic-congestion at
confidence 0.70, in the (15, 30] band at 0.60, and in the (5, 15] band
at 0.50 with the generic explanation. -/
theorem C1_fallback_bands {α : Type} [LinearOrderedField α] (stops : List (Stop α))
    (late_by_min : ℤ) (weather_impact : Option (WeatherReason α))
    (traffic_data : Option (TrafficData α))
    (hempty : candidateScores stops weather_impact traffic_data = [])
    (hlate : 5 < late_by_min) :
    (30 < late_by_min →
      score_delay_reason stops late_by_min weather_impact traffic_data
        = (.traffic_congestion, 7/10,
            mkExplanation .traffic_congestion traffic_data weather_impact late_by_min)) ∧
    (15 < late_by_min → late_by_min ≤ 30 →
      score_delay_reason stops late_by_min weather_impact traffic_data
        = (.traffic_congestion, 6/10,
            mkExplanation .traffic_congestion traffic_data weather_impact late_by_min)) ∧
    (late_by_min ≤ 15 →
      score_delay_reason stops late_by_min weather_impact traffic_data
        = (.traffic_congestion, 1/2, .genericDelay late_by_min)) := by
  refine ⟨fun h30 => ?_, fun h15 h30 => ?_, fun h15 => ?_⟩ <;>
    (rw [score_delay_reason, if_neg (by omega), hempty]; simp only [])
  · rw [if_pos ⟨h30, trivial⟩]; rfl
  · rw [if_neg (fun hc => (by omega : ¬ 30 < late_by_min) hc.1), if_pos ⟨h15, trivial⟩]; rfl
  · rw [if_neg (fun hc => (by omega : ¬ 30 < late_by_min) hc.1),
      if_neg (fun hc => (by omega : ¬ 15 < late_by_min) hc.1)]; rfl

/-- C1 witness: the amended >30-minute band at lateness 31 with no
candidates. -/
theorem C1_witness :
    score_delay_reason (α := ℚ) [] 31 none none
      = (.traffic_congestion, 7/10, mkExplanation .traffic_congestion none none 31) :=
  (C1_fallback_bands [] 31 none none rfl (by decide)).1 (by decide)

/-- C2 counterexample: a traffic sample whose live/free-flow speed
ratio is 1.5 (live traffic faster than free flow, as the providers can
report) yields a traffic multiplier of 1.5, above the claimed upper
bound 1.0. -/
theorem C2_counterexample :
    (calculate_traffic_multiplier (α := ℚ) ⟨some (3/2), some "none"⟩).1 = 3/2
      ∧ ¬ ((3/2 : ℚ) ≤ 1) := by
  constructor
  · norm_num [calculate_traffic_multiplier]
  · norm_num

/-- C2 (amended): the weather multiplier always lies in [0.4, 1.0]; the
traffic multiplier is always at least 0.4, and is at most 1.0 whenever
the speed ratio of the sample (defaulted to 1) is at most 1 - a speed
ratio above 1 is passed through unclamped. -/
theorem C2_multiplier_bounds {α : Type} [LinearOrderedField α]
    (w : WeatherData α) (t : TrafficData α) :
    (2/5 ≤ (calculate_weather_multiplier w).1 ∧ (calculate_weather_multiplier w).1 ≤ 1) ∧
    2/5 ≤ (calculate_traffic_multiplier t).1 ∧
    (t.speedRatio.getD 1 ≤ 1 → (calculate_traffic_multiplier t).1 ≤ 1) := by
  refine ⟨?_, ?_, fun hr => ?_⟩
  · simp only [calculate_weather_multiplier]
    split_ifs <;> constructor <;>
      simp [le_min_iff, min_le_iff] <;> norm_num
  · simp only [calculate_traffic_multiplier]
    exact le_max_right _ _
  · simp only [calculate_traffic_multiplier]
    exact max_le hr (by norm_num)

/-- C2 witness: concrete samples; the traffic sample has speed ratio
1/2 which is at most 1, so both bounds apply. -/
theorem C2_witness :
    2/5 ≤ (calculate_traffic_multiplier (α := ℚ) ⟨some (1/2), some "moderate"⟩).1 ∧
    (calculate_traffic_multiplier (α := ℚ) ⟨some (1/2), some "moderate"⟩).1 ≤ 1 ∧
    2/5 ≤ (calculate_weather_multiplier (α := ℚ) ⟨some 12, none, []⟩).1 ∧
    (calculate_weather_multiplier (α := ℚ) ⟨some 12, none, []⟩).1 ≤ 1 :=
  ⟨(C2_multiplier_bounds ⟨some 12, none, []⟩ ⟨some (1/2), some "moderate"⟩).2.1,
   (C2_multiplier_bounds ⟨some 12, none, []⟩ ⟨some (1/2), some "moderate"⟩).2.2 (by norm_num),
   (C2_multiplier_bounds (t := ⟨some (1/2), some "moderate"⟩) ⟨some 12, none, []⟩).1.1,
   (C2_multiplier_bounds (t := ⟨some (1/2), some "moderate"⟩) ⟨some 12, none, []⟩).1.2⟩

/-- C3 counterexample: with 2 waypoints and num_samples = 1 the sampler
raises ZeroDivisionError (the index comprehension divides by
num_samples - 1 = 0) instead of returning a list. -/
theorem C3_counterexample :
    get_weather_along_route (α := ℚ) (fun _ => some ⟨none, none, []⟩) [(0, 0), (1, 1)] 1
      = .error ()
    ∧ ∀ l, get_weather_along_route (α := ℚ) (fun _ => some ⟨none, none, []⟩) [(0, 0), (1, 1)] 1
      ≠ .ok l := by
  refine ⟨?_, fun l hl => ?_⟩
  · norm_num [get_weather_along_route]
  · rw [get_weather_along_route, if_neg (by norm_num), if_pos rfl] at hl
    exact Except.noConfusion hl

/-- C3 (amended): for every waypoint list with at least 2 points and
every num_samples at least 2, the sampler returns a list without error,
and the sampled indices include both the first index 0 and the last
index len - 1. -/
theorem C3_sampler_safe {α : Type} [LinearOrderedField α]
    (getW : Nat → Option (WeatherData α)) (waypoints : List (α × α)) (num_samples : Nat)
    (hway : 2 ≤ waypoints.length) (hnum : 2 ≤ num_samples) :
    (∃ l, get_weather_along_route getW waypoints num_samples = .ok l) ∧
    0 ∈ sampleIndices waypoints.length num_samples ∧
    waypoints.length - 1 ∈ sampleIndices waypoints.length num_samples := by
  refine ⟨?_, ?_, ?_⟩
  · rw [get_weather_along_route, if_neg (by omega), if_neg (by omega)]
    exact ⟨_, rfl⟩
  · rw [sampleIndices]
    exact List.mem_map.mpr ⟨0, List.mem_range.mpr (by omega), by simp⟩
  · rw [sampleIndices]
    refine List.mem_map.mpr ⟨num_samples - 1, List.mem_range.mpr (by omega), ?_⟩
    exact Nat.mul_div_cancel_left _ (by omega)

/-- C3 witness: a 2-point route sampled 3 times. -/
theorem C3_witness :
    (∃ l, get_weather_along_route (α := ℚ) (fun _ => none) [(0, 0), (1, 1)] 3 = .ok l) ∧
    0 ∈ sampleIndices 2 3 ∧ 1 ∈ sampleIndices 2 3 :=
  C3_sampler_safe (fun _ => none) [(0, 0), (1, 1)] 3 (by decide) (by decide)

/-- C5: for every successful routing result and valid multiplier pair
(multipliers produced by the calculators are at least 0.4, which keeps
the division well defined), calculate_eta_with_traffic sets the
effective multiplier to the minimum of the two, divides the base
duration by it when it is below 1.0, and leaves the duration unchanged
otherwise. -/
theorem C5_effective_multiplier {α : Type} [LinearOrderedField α]
    (r : RouteOk α) (tm wm : α) (htm : 2/5 ≤ tm) (hwm : 2/5 ≤ wm) :
    ∃ a : AdjustedRoute α, calculate_eta_with_traffic (some r) tm wm = some a ∧
      a.effective_multiplier = min tm wm ∧
      (0 : α) < a.effective_multiplier ∧
      a.base_duration_s = r.duration_s ∧
      a.adjusted_duration_s
        = (if min tm wm < 1 then r.duration_s / min tm wm else r.duration_s) ∧
      a.duration_s = a.adjusted_duration_s ∧
      a.duration_min = a.adjusted_duration_s / 60 ∧
      a.distance_km = r.distance_km := by
  refine ⟨_, rfl, rfl, ?_, rfl, rfl, rfl, rfl, rfl⟩
  exact lt_of_lt_of_le (by norm_num) (le_min htm hwm)

/-- C5 witness: a successful route of 600 s adjusted with multipliers
one half and three quarters. -/
theorem C5_witness :
    ∃ a : AdjustedRoute ℚ, calculate_eta_with_traffic (some ⟨10, 600, 10⟩) (1/2) (3/4) = some a ∧
      a.effective_multiplier = min (1/2) (3/4) ∧
      (0 : ℚ) < a.effective_multiplier ∧
      a.base_duration_s = 600 ∧
      a.adjusted_duration_s = (if min (1/2 : ℚ) (3/4) < 1 then 600 / min (1/2 : ℚ) (3/4) else 600) ∧
      a.duration_s = a.adjusted_duration_s ∧
      a.duration_min = a.adjusted_duration_s / 60 ∧
      a.distance_km = 10 :=
  C5_effective_multiplier ⟨10, 600, 10⟩ (1/2) (3/4) (by norm_num) (by norm_num)

/-- C7: lateness of at most 5 minutes short-circuits the classifier to
on-time at confidence 1.0 with the on-schedule explanation, whatever
traffic, weather or dwell evidence is present; and the stored record
still carries the raw lateness value of the ETA entry while taking the
reason, confidence and explanation from the classifier. -/
theorem C7_noise_threshold {α : Type} [LinearOrderedField α] (stops : List (Stop α))
    (late_by_min : ℤ) (wi : Option (WeatherReason α)) (td : Option (TrafficData α))
    (e : Entry) (stopsR : List (Stop ℝ)) (wiR : Option (WeatherReason ℝ))
    (tdR : Option (TrafficData ℝ))
    (h : late_by_min ≤ 5) (he : e.late_by_min ≤ 5) :
    score_delay_reason stops late_by_min wi td = (.on_time, 1, .onSchedule) ∧
    store_eta e (score_delay_reason stopsR e.late_by_min wiR tdR)
      = { stop_id := e.stop_id, eta_ts := e.eta_ts, on_time := e.on_time,
          late_by_min := e.late_by_min, reason_code := .on_time, confidence := 1,
          explanation := .onSchedule } := by
  constructor
  · rw [score_delay_reason, if_pos h]
  · rw [score_delay_reason, if_pos he]; rfl

/-- C7 witness: lateness 3 with heavy congestion, heavy rain and an
excess-dwell stop all present. -/
theorem C7_witness :
    score_delay_reason (α := ℚ) [⟨3, 0, 0, true, none, some 30, some 0, some 2400⟩] 3
        (some (.heavyRain 12)) (some ⟨some (1/5), some "heavy"⟩)
      = (.on_time, 1, .onSchedule) ∧
    store_eta ⟨7, none, true, 3, .on_time, 9/10, 0, none⟩
        (score_delay_reason [] (3 : ℤ) none none)
      = { stop_id := 7, eta_ts := none, on_time := true, late_by_min := 3,
          reason_code := .on_time, confidence := 1, explanation := .onSchedule } :=
  C7_noise_threshold [⟨3, 0, 0, true, none, some 30, some 0, some 2400⟩] 3
    (some (.heavyRain 12)) (some ⟨some (1/5), some "heavy"⟩)
    ⟨7, none, true, 3, .on_time, 9/10, 0, none⟩ [] none none (by decide) (by decide)

/-- C9: for the completed stop with recorded timestamps whose score
survives the dwell scan (the last qualifying one), the classifier
registers a facility-dwell candidate scored
min(0.90, 0.60 + (actual_dwell - planned_service) / 60). -/
theorem C9_facility_dwell {α : Type} [LinearOrderedField α] (stops : List (Stop α))
    (wi : Option (WeatherReason α)) (td : Option (TrafficData α)) (s : Stop α)
    (hlast : lastQualifying stops = some s) :
    dictLookup (candidateScores stops wi td) .facility_dwell = some (dwellScoreOf s) ∧
    ∀ arr dep, s.actual_arr_ts = some arr → s.actual_dep_ts = some dep →
      dwellScoreOf s
        = min (9/10) (6/10 + ((dep - arr) / 60 - s.planned_service_min.getD 30) / 60) := by
  constructor
  · rw [candidateScores, dwellScores_lookup, hlast]; rfl
  · intro arr dep ha hd
    rw [dwellScoreOf, ha, hd]

/-- C9 witness, Scenario C: planned service 30 min, actual dwell 40 min
(arrival at 0 s, departure at 2400 s): 40 > 30 times 1.2, and the score
is min(0.90, 0.60 + 10/60) = 23/30. -/
theorem C9_witness :
    dictLookup (candidateScores (α := ℚ) [⟨4, 0, 0, true, none, some 30, some 0, some 2400⟩]
        none none) .facility_dwell
      = some (dwellScoreOf (⟨4, 0, 0, true, none, some 30, some 0, some 2400⟩ : Stop ℚ)) ∧
    dwellScoreOf (⟨4, 0, 0, true, none, some 30, some 0, some 2400⟩ : Stop ℚ) = 23/30 :=
  ⟨(C9_facility_dwell [⟨4, 0, 0, true, none, some 30, some 0, some 2400⟩] none none
      ⟨4, 0, 0, true, none, some 30, some 0, some 2400⟩
      (by norm_num [lastQualifying, dwellQualifies])).1,
   by norm_num [dwellScoreOf]⟩

/-- C4: every completed stop yields an ETA entry whose eta_ts is the
recorded actual arrival, on_time true, lateness 0, reason on-time and
confidence 1.0 (and distance 0, no weather impact). -/
theorem C4_completed_stop (now : ℝ) (env : Nat → LegEnv) (pos : ℝ × ℝ)
    (stops : List (Stop ℝ)) (j : Nat) (h : j < stops.length)
    (h2 : j < (compute_eta_with_routing now env pos stops).length)
    (hc : (stops.get ⟨j, h⟩).completed = true) :
    (compute_eta_with_routing now env pos stops).get ⟨j, h2⟩
      = { stop_id := (stops.get ⟨j, h⟩).id, eta_ts := (stops.get ⟨j, h⟩).actual_arr_ts,
          on_time := true, late_by_min := 0, reason_code := .on_time,
          confidence := 1, distance_km := 0, weather_impact := none } := by
  have h2a : j < (compute_eta_aux now env ⟨pos.1, pos.2, 0⟩ 0 stops).length := h2
  have hE : (compute_eta_with_routing now env pos stops).get ⟨j, h2⟩
      = (etaStep now (env (0 + j)) (run_eta_state now env ⟨pos.1, pos.2, 0⟩ 0 (stops.take j))
          (stops.get ⟨j, h⟩)).2 :=
    compute_eta_aux_get now env stops ⟨pos.1, pos.2, 0⟩ 0 j h h2a
  rw [hE, etaStep, if_pos hc]

/-- C4 witness: a single completed stop with actual arrival at 5 s. -/
theorem C4_witness :
    (compute_eta_with_routing 0 envRouteFail (0, 0) [stopCompleted]).get
        ⟨0, by rw [compute_eta_length]; exact Nat.one_pos⟩
      = { stop_id := 1, eta_ts := some 5, on_time := true, late_by_min := 0,
          reason_code := .on_time, confidence := 1, distance_km := 0,
          weather_impact := none } :=
  C4_completed_stop 0 envRouteFail (0, 0) [stopCompleted] 0 Nat.one_pos
    (by rw [compute_eta_length]; exact Nat.one_pos) rfl

/-- C10: a pending stop with no planned arrival timestamp is always
reported on time with zero lateness, whatever the computed arrival. -/
theorem C10_missing_planned_arrival (now : ℝ) (env : Nat → LegEnv) (pos : ℝ × ℝ)
    (stops : List (Stop ℝ)) (j : Nat) (h : j < stops.length)
    (h2 : j < (compute_eta_with_routing now env pos stops).length)
    (hpend : (stops.get ⟨j, h⟩).completed = false)
    (hn : (stops.get ⟨j, h⟩).planned_arr_ts = none) :
    ((compute_eta_with_routing now env pos stops).get ⟨j, h2⟩).on_time = true ∧
    ((compute_eta_with_routing now env pos stops).get ⟨j, h2⟩).late_by_min = 0 := by
  have h2a : j < (compute_eta_aux now env ⟨pos.1, pos.2, 0⟩ 0 stops).length := h2
  have hE : (compute_eta_with_routing now env pos stops).get ⟨j, h2⟩
      = (etaStep now (env (0 + j)) (run_eta_state now env ⟨pos.1, pos.2, 0⟩ 0 (stops.take j))
          (stops.get ⟨j, h⟩)).2 :=
    compute_eta_aux_get now env stops ⟨pos.1, pos.2, 0⟩ 0 j h h2a
  have hcne : ¬ (stops.get ⟨j, h⟩).completed = true := by
    rw [hpend]; exact Bool.false_ne_true
  rw [hE, etaStep, if_neg hcne, hn]
  exact ⟨rfl, rfl⟩

/-- C10 witness: a pending stop with no planned arrival and a failing
route. -/
theorem C10_witness :
    ((compute_eta_with_routing 0 envRouteFail (0, 0) [stopNoPlan]).get
        ⟨0, by rw [compute_eta_length]; exact Nat.one_pos⟩).on_time = true ∧
    ((compute_eta_with_routing 0 envRouteFail (0, 0) [stopNoPlan]).get
        ⟨0, by rw [compute_eta_length]; exact Nat.one_pos⟩).late_by_min = 0 :=
  C10_missing_planned_arrival 0 envRouteFail (0, 0) [stopNoPlan] 0 Nat.one_pos
    (by rw [compute_eta_length]; exact Nat.one_pos) rfl rfl

/-- C6: a pending stop with a planned arrival is late exactly when the
computed arrival is strictly after it; when late, late_by_min is
max(0, floor of the difference in seconds over 60); when on time it is
0. -/
theorem C6_lateness (now : ℝ) (env : Nat → LegEnv) (pos : ℝ × ℝ)
    (stops : List (Stop ℝ)) (j : Nat) (h : j < stops.length)
    (h2 : j < (compute_eta_with_routing now env pos stops).length) (p : ℝ)
    (hpend : (stops.get ⟨j, h⟩).completed = false)
    (hp : (stops.get ⟨j, h⟩).planned_arr_ts = some p) :
    ∃ t : ℝ,
      ((compute_eta_with_routing now env pos stops).get ⟨j, h2⟩).eta_ts = some t ∧
      (((compute_eta_with_routing now env pos stops).get ⟨j, h2⟩).on_time = false ↔ p < t) ∧
      (p < t →
        ((compute_eta_with_routing now env pos stops).get ⟨j, h2⟩).late_by_min
          = max 0 ⌊(t - p) / 60⌋) ∧
      (¬ p < t →
        ((compute_eta_with_routing now env pos stops).get ⟨j, h2⟩).late_by_min = 0) := by
  have h2a : j < (compute_eta_aux now env ⟨pos.1, pos.2, 0⟩ 0 stops).length := h2
  have hE : (compute_eta_with_routing now env pos stops).get ⟨j, h2⟩
      = (etaStep now (env (0 + j)) (run_eta_state now env ⟨pos.1, pos.2, 0⟩ 0 (stops.take j))
          (stops.get ⟨j, h⟩)).2 :=
    compute_eta_aux_get now env stops ⟨pos.1, pos.2, 0⟩ 0 j h h2a
  have hcne : ¬ (stops.get ⟨j, h⟩).completed = true := by
    rw [hpend]; exact Bool.false_ne_true
  rw [hE, etaStep, if_neg hcne, hp]
  simp only []
  refine ⟨_, rfl, ?_, ?_, ?_⟩
  · split_ifs with hlt
    · exact ⟨fun _ => hlt, fun _ => rfl⟩
    · exact ⟨fun hc => hc.elim, fun hc => absurd hc hlt⟩
  · intro hlt
    rw [if_pos hlt]
    exact (max_eq_right (Int.floor_nonneg.mpr
      (div_nonneg (sub_nonneg.mpr hlt.le) (by norm_num)))).symm
  · intro hlt
    rw [if_neg hlt]

/-- C6 witness: a pending stop planned at time 0 with a successful
6000 s route. -/
theorem C6_witness :
    ∃ t : ℝ,
      ((compute_eta_with_routing 0 envRouteOk (0, 0) [stopPending]).get
          ⟨0, by rw [compute_eta_length]; exact Nat.one_pos⟩).eta_ts = some t ∧
      (((compute_eta_with_routing 0 envRouteOk (0, 0) [stopPending]).get
          ⟨0, by rw [compute_eta_length]; exact Nat.one_pos⟩).on_time = false ↔ (0 : ℝ) < t) ∧
      ((0 : ℝ) < t →
        ((compute_eta_with_routing 0 envRouteOk (0, 0) [stopPending]).get
            ⟨0, by rw [compute_eta_length]; exact Nat.one_pos⟩).late_by_min
          = max 0 ⌊(t - 0) / 60⌋) ∧
      (¬ (0 : ℝ) < t →
        ((compute_eta_with_routing 0 envRouteOk (0, 0) [stopPending]).get
            ⟨0, by rw [compute_eta_length]; exact Nat.one_pos⟩).late_by_min = 0) :=
  C6_lateness 0 envRouteOk (0, 0) [stopPending] 0 Nat.one_pos
    (by rw [compute_eta_length]; exact Nat.one_pos) 0 rfl rfl

/-- C8: when the routing call for a pending stop fails, the ETA entry
uses the haversine great-circle distance from the current position to
the stop and a 70 km/h travel-time fallback, and the pass still yields
one ETA entry per stop. -/
theorem C8_routing_fallback (now : ℝ) (env : Nat → LegEnv) (pos : ℝ × ℝ)
    (stops : List (Stop ℝ)) (j : Nat) (h : j < stops.length)
    (h2 : j < (compute_eta_with_routing now env pos stops).length)
    (hpend : (stops.get ⟨j, h⟩).completed = false)
    (hfail : (env j).route = none) :
    (compute_eta_with_routing now env pos stops).length = stops.length ∧
    ((compute_eta_with_routing now env pos stops).get ⟨j, h2⟩).distance_km
      = calculate_distance (run_eta_state now env ⟨pos.1, pos.2, 0⟩ 0 (stops.take j)).lat
          (run_eta_state now env ⟨pos.1, pos.2, 0⟩ 0 (stops.take j)).lon
          (stops.get ⟨j, h⟩).lat (stops.get ⟨j, h⟩).lon ∧
    ((compute_eta_with_routing now env pos stops).get ⟨j, h2⟩).eta_ts
      = some (now + ((run_eta_state now env ⟨pos.1, pos.2, 0⟩ 0 (stops.take j)).cumulative
          + ((compute_eta_with_routing now env pos stops).get ⟨j, h2⟩).distance_km / 70 * 60
          + (stops.get ⟨j, h⟩).planned_service_min.getD 0) * 60) := by
  have h2a : j < (compute_eta_aux now env ⟨pos.1, pos.2, 0⟩ 0 stops).length := h2
  have hE : (compute_eta_with_routing now env pos stops).get ⟨j, h2⟩
      = (etaStep now (env (0 + j)) (run_eta_state now env ⟨pos.1, pos.2, 0⟩ 0 (stops.take j))
          (stops.get ⟨j, h⟩)).2 :=
    compute_eta_aux_get now env stops ⟨pos.1, pos.2, 0⟩ 0 j h h2a
  have hcne : ¬ (stops.get ⟨j, h⟩).completed = true := by
    rw [hpend]; exact Bool.false_ne_true
  refine ⟨compute_eta_length now env pos stops, ?_, ?_⟩ <;>
    (rw [hE, etaStep, if_neg hcne]
     simp only [Nat.zero_add]
     rw [hfail]) <;> rfl

/-- C8 witness: a single pending stop with a failing routing call still
gets an ETA entry. -/
theorem C8_witness :
    (compute_eta_with_routing 0 envRouteFail (0, 0) [stopNoPlan]).length
      = [stopNoPlan].length :=
  (C8_routing_fallback 0 envRouteFail (0, 0) [stopNoPlan] 0 Nat.one_pos
    (by rw [compute_eta_length]; exact Nat.one_pos) rfl rfl).1

end EtaTracker
